import Mathlib

/-!
Verification model of the Student Performance Predictor backend
(`backend/app/main.py` and `backend/app/ml/train.py`).

Shallow embedding conventions:
* Python floats are modelled as `ℚ`; the literal `0.6` becomes `(3/5 : ℚ)`.
* A JSON value is the inductive `JVal`; a Python `dict` produced by
  `json.load` is an association list with last-wins lookup `jget`
  (Python's `json` keeps the last occurrence of a duplicate key).
* The metadata file on disk is `MetaFile`: it can be absent, present but
  unreadable (`open`/`read` raises `OSError`), present with contents that
  are not valid JSON (`json.load` raises `JSONDecodeError`), or present
  with a parsed JSON value.
* The `PRED_THRESHOLD` environment variable is `Option (Option ℚ)`:
  `none` means unset or the empty string (falsy in `if env_threshold:`),
  `some none` means set to a non-empty string on which `float()` raises
  `ValueError`, and `some (some t)` means set to a string parsing to `t`.
* Fallible code returns `Except`; an uncaught Python exception is an
  `Except.error`.
-/

/-- A JSON value, as produced by Python's `json.load`.  Python `bool` is a
subclass of `int`, so `JVal.bool` counts as numeric for `isinstance(x,
(float, int))` checks; `float(True) = 1.0` and `float(False) = 0.0`. -/
inductive JVal : Type where
  | num (q : ℚ)
  | bool (b : Bool)
  | str (s : String)
  | null
  | arr (elems : List JVal)
  | obj (fields : List (String × JVal))

/-- Last-wins lookup in an association list, matching the key→value map of
a Python dict loaded from JSON (duplicate keys collapse, last one wins). -/
def jget (l : List (String × JVal)) (k : String) : Option JVal :=
  match l with
  | [] => none
  | p :: rest =>
    match jget rest k with
    | some v => some v
    | none => if p.1 = k then some p.2 else none

/-- Python `metadata[k] = v` on a dict: replace the value at an existing
key (keeping its position), or append a new binding. -/
def dictSet (l : List (String × JVal)) (k : String) (v : JVal) :
    List (String × JVal) :=
  if l.any (fun p => p.1 = k) then
    l.map (fun p => if p.1 = k then (k, v) else p)
  else l ++ [(k, v)]

/-- State of the metadata JSON file on disk. -/
inductive MetaFile : Type where
  | missing
  | unreadable
  | invalidJson
  | content (j : JVal)

/-- The source that supplied the resolved threshold.  The code spells the
middle two as the strings "metadata:user" and "metadata:recommended". -/
inductive Source : Type where
  | env
  | metadataUser
  | metadataRecommended
  | default
deriving DecidableEq, Repr

/-- The check `isinstance(x, (float, int))` followed by `float(x)`: the numeric
value of a JSON value, with Python bools numeric (`True ↦ 1, False ↦ 0`). -/
def jnumVal : JVal → Option ℚ
  | JVal.num q => some q
  | JVal.bool b => some (if b then 1 else 0)
  | _ => none

/-- The check applied by `_resolve_threshold_with_source` to a metadata
field: it must be numeric and strictly between 0 and 1. -/
def acceptThreshold (v : Option JVal) : Option ℚ :=
  match v.bind jnumVal with
  | some q => if 0 < q ∧ q < 1 then some q else none
  | none => none

/-- The metadata half of `_resolve_threshold_with_source`
(`main.py` lines 98–110): if the file exists and loads as a dict, try
`user_threshold` then `recommended_threshold`, each accepted only when
numeric and strictly inside (0, 1); `JSONDecodeError` and `OSError` are
caught and logged, any other shape of contents yields nothing. -/
def metadataThreshold : MetaFile → Option (ℚ × Source)
  | MetaFile.content (JVal.obj l) =>
    match acceptThreshold (jget l "user_threshold") with
    | some u => some (u, Source.metadataUser)
    | none =>
      match acceptThreshold (jget l "recommended_threshold") with
      | some r => some (r, Source.metadataRecommended)
      | none => none
  | _ => none

/-- Function `_resolve_threshold_with_source` (`main.py` lines 88–112): the
environment override wins when it parses and lies strictly inside (0, 1);
otherwise the metadata file is consulted; otherwise `(0.6, "default")`. -/
def resolve_threshold_with_source (env : Option (Option ℚ))
    (meta : MetaFile) : ℚ × Source :=
  match env with
  | some (some t) =>
    if 0 < t ∧ t < 1 then (t, Source.env)
    else
      match metadataThreshold meta with
      | some r => r
      | none => ((3/5 : ℚ), Source.default)
  | _ =>
    match metadataThreshold meta with
    | some r => r
    | none => ((3/5 : ℚ), Source.default)

/-- Failures of the `update_threshold` endpoint (`main.py` lines 259–283):
the spec's `InvalidThresholdError` surfaces as HTTP 400 "Threshold must be
between 0 and 1."; an `OSError` while reading an existing-but-unreadable
metadata file is NOT caught there (only `json.JSONDecodeError` is) and
propagates. -/
inductive UpdateError : Type where
  | invalidThreshold
  | ioError
deriving DecidableEq, Repr

/-- Endpoint `update_threshold` (`main.py` lines 259–283): validate
`0.0 < threshold < 1.0`, read the existing metadata (treating a missing
file, non-dict JSON, or a `JSONDecodeError` as the empty dict; an
`OSError` on an unreadable file propagates), set `user_threshold` and
`user_threshold_set_at` (the latter modelled by the caller-supplied
timestamp string `now`), and write the merged dict back.  Returns the
response payload `(threshold, "metadata")` together with the new file
state. -/
def update_threshold (v : ℚ) (now : String) (st : MetaFile) :
    Except UpdateError ((ℚ × String) × MetaFile) :=
  if 0 < v ∧ v < 1 then
    match st with
    | MetaFile.unreadable => Except.error UpdateError.ioError
    | _ =>
      let metadata : List (String × JVal) :=
        match st with
        | MetaFile.content (JVal.obj l) => l
        | _ => []
      let m1 := dictSet metadata "user_threshold" (JVal.num v)
      let m2 := dictSet m1 "user_threshold_set_at" (JVal.str now)
      Except.ok ((v, "metadata"), MetaFile.content (JVal.obj m2))
  else Except.error UpdateError.invalidThreshold

/-- One row of the training CSV after `pd.read_csv`.  Only the `result`
column's presence matters to the claims; `None` models a NaN dropped by
`df.dropna(subset=["result"])`.  The three feature columns are carried for
completeness. -/
structure TrainRow : Type where
  attendance : ℚ
  marks : ℚ
  internal_score : ℚ
  result : Option ℚ
deriving DecidableEq, Repr

/-- State of the training CSV: the file can be absent, or load as a table
of rows. -/
inductive Dataset : Type where
  | missing
  | table (rows : List TrainRow)

/-- Python exceptions reaching the `retrain` endpoint, grouped by the
classes its `except` clauses discriminate on: `FileNotFoundError`,
`ValueError`, and everything else. -/
inductive TrainError : Type where
  | fileNotFound (msg : String)
  | valueError (msg : String)
  | otherError (msg : String)
deriving DecidableEq, Repr

/-- Outcome of the scikit-learn fit/evaluation steps inside `train_model`
(`train.py` lines 35–56).  The library is outside this repository, so its
behaviour is a parameter: it either produces a ROC-AUC value, or raises an
exception (which `train_model` does not catch).  In particular
scikit-learn raises `ValueError` for data-shape problems such as a
single-class test split in `roc_auc_score`. -/
inductive FitOutcome : Type where
  | ok (roc_auc : ℚ)
  | raises (e : TrainError)

/-- Number of rows labelled `x`, as tallied by
`df["result"].value_counts()`. -/
def classCount (labels : List ℚ) (x : ℚ) : Nat :=
  (labels.filter (fun y => y = x)).length

/-- Python `dict(df["result"].value_counts())`: each distinct label paired with
its count.  pandas orders by descending count; only the label→count map is
observable downstream, so first-occurrence order is kept here. -/
def value_counts (labels : List ℚ) : List (ℚ × Nat) :=
  labels.dedup.map (fun x => (x, classCount labels x))

/-- Function `train_model` (`train.py` lines 30–72): runs fit/evaluation (abstracted
as `fit`), and on success builds the metadata dict
`{roc_auc, samples_used, class_counts, recommended_threshold: 0.6}` and
writes it to the metadata file with `open(..., "w")` + `json.dump`,
replacing whatever was there (the prior state `_st` does not flow into the
result).  An exception from fit/evaluation propagates before anything is
written.  The model/scaler artifact file and the accuracy/precision/
recall/F1 metrics dict are not modelled: no claim mentions their values.
JSON object keys are strings, so each label is rendered with `toString`
(an injection on `ℚ`). -/
def train_model (fit : FitOutcome) (df : List TrainRow) (_st : MetaFile) :
    Except TrainError (JVal × MetaFile) :=
  match fit with
  | FitOutcome.raises e => Except.error e
  | FitOutcome.ok auc =>
    let labels := df.filterMap (fun r => r.result)
    let metadata := JVal.obj
      [("roc_auc", JVal.num auc),
       ("samples_used", JVal.num df.length),
       ("class_counts", JVal.obj ((value_counts labels).map
          (fun p => (toString p.1, JVal.num p.2)))),
       ("recommended_threshold", JVal.num (3/5 : ℚ))]
    Except.ok (metadata, MetaFile.content metadata)

/-- Function `train_from_csv` (`train.py` lines 75–95): a missing CSV raises
`FileNotFoundError` naming the path; otherwise rows whose `result` is NaN
are dropped, and fewer than 10 remaining rows raises `ValueError` naming
the count found; otherwise control passes to `train_model`. -/
def train_from_csv (csv_path : String) (fit : FitOutcome) (ds : Dataset)
    (st : MetaFile) : Except TrainError (JVal × MetaFile) :=
  match ds with
  | Dataset.missing =>
    Except.error (TrainError.fileNotFound ("Dataset not found at " ++ csv_path))
  | Dataset.table rows =>
    let df := rows.filter (fun r => r.result.isSome)
    if df.length < 10 then
      Except.error (TrainError.valueError
        ("Insufficient data for training. Need at least 10 samples, got "
          ++ toString df.length))
    else train_model fit df st

/-- The `except` clauses of the `retrain` endpoint (`main.py` lines
245–256): `FileNotFoundError` → 404, `ValueError` → 400 with the
exception's message, anything else → 500. -/
def retrain_error_response : TrainError → Nat × String
  | TrainError.fileNotFound _ =>
    (404, "CSV file not found. Please ensure student_data_sample.csv exists in /data.")
  | TrainError.valueError m => (400, m)
  | TrainError.otherError m => (500, "Training error: " ++ m)

/-- Endpoint `retrain` (`main.py` lines 218–256): call `train_from_csv` and map any
exception through the `except` clauses to an HTTP error response. -/
def retrain_endpoint (csv_path : String) (fit : FitOutcome) (ds : Dataset)
    (st : MetaFile) : Except (Nat × String) (JVal × MetaFile) :=
  match train_from_csv csv_path fit ds st with
  | Except.ok r => Except.ok r
  | Except.error e => Except.error (retrain_error_response e)

/-- Modelled from the spec: `backend/app/ml/predictor.py` is not in the
sources (only its callers in `main.py` are).  The spec's Trained Artifact
is "an opaque bundle of (fitted feature scaler, fitted calibrated
classifier)"; it is abstracted as a function from the three features to
the calibrated probability of the positive class, which as a probability
lies in [0, 1] (glossary: "a classifier output rescaled so that predicted
probabilities approximate true empirical frequencies"). -/
structure Artifact : Type where
  prob : ℚ → ℚ → ℚ → ℚ
  prob_nonneg : ∀ a m i, 0 ≤ prob a m i
  prob_le_one : ∀ a m i, prob a m i ≤ 1

/-- Result of a single prediction, per the spec's Predictor contract:
`{probability, prediction, threshold_used, threshold_source}`. -/
structure PredictResult : Type where
  probability : ℚ
  prediction : Nat
  threshold_used : ℚ
  threshold_source : Source
deriving DecidableEq

/-- Modelled from the spec: `Predictor.predict` (in the absent
`predictor.py`).  It "computes a calibrated probability of the positive
class by applying the persisted scaler then the persisted classifier to
the single feature vector" and "applies the Threshold Resolver's current
value to convert probability into a binary label: `prediction = 1 if
probability >= threshold else 0`", reporting which threshold and source
were used.  Validated numeric features are the `ℚ` arguments. -/
def Predictor.predict (art : Artifact) (env : Option (Option ℚ))
    (meta : MetaFile) (a m i : ℚ) : PredictResult :=
  let t := resolve_threshold_with_source env meta
  { probability := art.prob a m i
    prediction := if t.1 ≤ art.prob a m i then 1 else 0
    threshold_used := t.1
    threshold_source := t.2 }

/-- One enrollment record as handed to `predict_batch` by the database
layer; each of the three feature columns may be NULL. -/
structure Enrollment : Type where
  student_id : Int
  course_id : Int
  attendance : Option ℚ
  marks : Option ℚ
  internal_score : Option ℚ
deriving DecidableEq, Repr

/-- The completeness filter of `predict_batch` (`main.py` lines 179–189):
a row with all of attendance, marks and internal_score non-None yields its
identifiers and features; any other row yields nothing. -/
def completeRow (e : Enrollment) : Option (Int × Int × ℚ × ℚ × ℚ) :=
  match e.attendance, e.marks, e.internal_score with
  | some a, some m, some i => some (e.student_id, e.course_id, a, m, i)
  | _, _, _ => none

/-- One entry of the batch response, tagged with the originating
identifiers per the spec's batch contract. -/
structure BatchEntry : Type where
  student_id : Int
  course_id : Int
  probability : ℚ
  prediction : Nat
deriving DecidableEq

/-- Modelled from the spec: the per-row work of `Predictor.predict_batch`
(in the absent `predictor.py`), which processes the batch "preserving row
order and associating each output to the same index/identifier it was
given", "each tagged with its originating identifiers". -/
def predictEntry (art : Artifact) (thr : ℚ) (r : Int × Int × ℚ × ℚ × ℚ) :
    BatchEntry :=
  { student_id := r.1
    course_id := r.2.1
    probability := art.prob r.2.2.1 r.2.2.2.1 r.2.2.2.2
    prediction := if thr ≤ art.prob r.2.2.1 r.2.2.2.1 r.2.2.2.2 then 1 else 0 }

/-- Endpoint `predict_batch` (`main.py` lines 171–198): keep only enrollments with
all three features present, fail with HTTP 400 if none remain, otherwise
run the (spec-modelled) batch predictor over the kept rows and return the
entries together with their count (`"total": len(predictions)`). -/
def predict_batch_endpoint (art : Artifact) (env : Option (Option ℚ))
    (meta : MetaFile) (enrollments : List Enrollment) :
    Except (Nat × String) (List BatchEntry × Nat) :=
  let data := enrollments.filterMap completeRow
  if data.isEmpty then
    Except.error (400, "No enrollments with complete data found for prediction. Please ensure students have attendance, marks, and internal_score values.")
  else
    let thr := (resolve_threshold_with_source env meta).1
    let predictions := data.map (predictEntry art thr)
    Except.ok (predictions, predictions.length)

/-- A concrete CSV row used in concrete evaluations; the feature values
are arbitrary plausible numbers. -/
def sampleRow (r : Option ℚ) : TrainRow :=
  { attendance := 80, marks := 70, internal_score := 15, result := r }

/-- Five labelled rows: below the 10-row minimum. -/
def rows5 : List TrainRow :=
  [sampleRow (some 1), sampleRow (some 0), sampleRow (some 1),
   sampleRow (some 0), sampleRow (some 1)]

/-- Ten rows all labelled 1: enough rows, but a single class, the shape on
which scikit-learn's `roc_auc_score` raises `ValueError`. -/
def rows10one : List TrainRow := List.replicate 10 (sampleRow (some 1))

/-- Eleven rows, one with a missing label: ten usable rows of two
classes. -/
def rows11 : List TrainRow :=
  sampleRow none :: (List.replicate 5 (sampleRow (some 1)) ++
    List.replicate 5 (sampleRow (some 0)))

/-- Enrollment constructor shorthand for concrete evaluations. -/
def enr (sid cid : Int) (a m i : Option ℚ) : Enrollment :=
  { student_id := sid, course_id := cid,
    attendance := a, marks := m, internal_score := i }

/-- Five enrollments of which two lack `internal_score`. -/
def es5 : List Enrollment :=
  [enr 1 101 (some 80) (some 70) (some 15),
   enr 2 101 (some 60) (some 50) none,
   enr 3 101 (some 90) (some 85) (some 18),
   enr 4 102 (some 40) (some 45) none,
   enr 5 102 (some 75) (some 65) (some 12)]

/-- A concrete artifact whose classifier outputs a constant probability
1/2, used to evaluate the spec-modelled predictor on concrete input. -/
def constArtifact : Artifact :=
  { prob := fun _ _ _ => 1/2
    prob_nonneg := fun _ _ _ => by norm_num
    prob_le_one := fun _ _ _ => by norm_num }

/-! ### Association-list lemmas about `jget` and `dictSet` -/

theorem jget_append (l1 l2 : List (String × JVal)) (k : String) :
    jget (l1 ++ l2) k =
      match jget l2 k with
      | some v => some v
      | none => jget l1 k := by
  induction l1 with
  | nil => cases h : jget l2 k <;> simp [jget, h]
  | cons p rest ih => cases h : jget l2 k <;> simp [jget, ih, h]

theorem jget_map_setval_ne (l : List (String × JVal)) (k k' : String)
    (v : JVal) (h : k' ≠ k) :
    jget (l.map (fun p => if p.1 = k then (k, v) else p)) k' = jget l k' := by
  induction l with
  | nil => rfl
  | cons p rest ih =>
    cases hr : jget rest k' with
    | some w => simp [jget, ih, hr]
    | none =>
      by_cases hp : p.1 = k
      · simp [jget, ih, hr, hp, Ne.symm h]
      · simp [jget, ih, hr, hp]

theorem jget_map_setval_self (l : List (String × JVal)) (k : String)
    (v : JVal) :
    jget (l.map (fun p => if p.1 = k then (k, v) else p)) k =
      if l.any (fun p => p.1 = k) then some v else none := by
  induction l with
  | nil => simp [jget]
  | cons p rest ih =>
    by_cases hp : p.1 = k
    · cases hra : rest.any (fun p => decide (p.1 = k)) <;>
        simp [jget, ih, hp, hra]
    · cases hra : rest.any (fun p => decide (p.1 = k)) <;>
        simp [jget, ih, hp, hra]

theorem jget_dictSet_self (l : List (String × JVal)) (k : String) (v : JVal) :
    jget (dictSet l k v) k = some v := by
  unfold dictSet
  by_cases ha : l.any (fun p => p.1 = k) = true
  · rw [if_pos ha, jget_map_setval_self]
    simp [ha]
  · rw [if_neg ha, jget_append]
    simp [jget]

theorem jget_dictSet_ne (l : List (String × JVal)) (k k' : String) (v : JVal)
    (h : k' ≠ k) :
    jget (dictSet l k v) k' = jget l k' := by
  unfold dictSet
  by_cases ha : l.any (fun p => p.1 = k) = true
  · rw [if_pos ha, jget_map_setval_ne _ _ _ _ h]
  · rw [if_neg ha, jget_append]
    simp [jget, Ne.symm h]

/-! ### Spec-side selectors for the priority chain (written from the
spec's words in section 4.2, for the refinement statement of C1) -/

/-- Spec level 1: "An environment-provided override, parsed as a float,
accepted only if strictly between 0.0 and 1.0; malformed or out-of-range
values are logged and skipped". -/
def specEnvOverride (env : Option (Option ℚ)) : Option ℚ :=
  match env with
  | some (some t) => if 0 < t ∧ t < 1 then some t else none
  | _ => none

/-- Spec level 2: "A persisted user-set threshold from Run Metadata,
accepted only if strictly between 0.0 and 1.0". -/
def specUserThreshold (meta : MetaFile) : Option ℚ :=
  match meta with
  | MetaFile.content (JVal.obj l) => acceptThreshold (jget l "user_threshold")
  | _ => none

/-- Spec level 3: "A persisted recommended threshold from Run Metadata,
same bounds check". -/
def specRecommendedThreshold (meta : MetaFile) : Option ℚ :=
  match meta with
  | MetaFile.content (JVal.obj l) =>
    acceptThreshold (jget l "recommended_threshold")
  | _ => none

theorem metadataThreshold_as_chain (meta : MetaFile) :
    metadataThreshold meta =
      match specUserThreshold meta with
      | some u => some (u, Source.metadataUser)
      | none =>
        match specRecommendedThreshold meta with
        | some r => some (r, Source.metadataRecommended)
        | none => none := by
  cases meta with
  | content j => cases j <;> rfl
  | missing => rfl
  | unreadable => rfl
  | invalidJson => rfl

/-- C1: for every environment configuration and metadata-file state,
`resolve_threshold` returns the first satisfied level of the priority
chain: an in-range environment override wins with source `env`; otherwise
an in-range persisted `user_threshold` wins with source `metadata_user`;
otherwise an in-range persisted `recommended_threshold` wins with source
`metadata_recommended`; otherwise `(0.6, default)`.  Malformed or
out-of-range environment values are skipped, not fatal: the function is
total and falls through to the next level. -/
theorem resolve_threshold_priority_chain (env : Option (Option ℚ))
    (meta : MetaFile) :
    resolve_threshold_with_source env meta =
      match specEnvOverride env with
      | some t => (t, Source.env)
      | none =>
        match specUserThreshold meta with
        | some u => (u, Source.metadataUser)
        | none =>
          match specRecommendedThreshold meta with
          | some r => (r, Source.metadataRecommended)
          | none => ((3/5 : ℚ), Source.default) := by
  have hm := metadataThreshold_as_chain meta
  cases env with
  | none =>
    simp only [resolve_threshold_with_source, specEnvOverride, hm]
    cases specUserThreshold meta <;> cases specRecommendedThreshold meta <;> rfl
  | some o =>
    cases o with
    | none =>
      simp only [resolve_threshold_with_source, specEnvOverride, hm]
      cases specUserThreshold meta <;> cases specRecommendedThreshold meta <;> rfl
    | some t =>
      by_cases ht : 0 < t ∧ t < 1
      · simp [resolve_threshold_with_source, specEnvOverride, ht]
      · simp only [resolve_threshold_with_source, specEnvOverride, if_neg ht, hm]
        cases specUserThreshold meta <;> cases specRecommendedThreshold meta <;> rfl

/-- C7: `resolve_threshold` never raises; a missing file, an unreadable
file (`OSError` caught), a file whose contents are not valid JSON
(`JSONDecodeError` caught), and partial metadata offering no acceptable
threshold all behave exactly like "no metadata", and with no environment
override the resolution ultimately returns `(0.6, default)`.  Totality of
`resolve_threshold_with_source` as a Lean function over the whole state
space is the never-raises property: every caught-exception path is a value
of `MetaFile` and yields a result. -/
theorem resolve_threshold_never_fatal (env : Option (Option ℚ)) :
    (resolve_threshold_with_source env MetaFile.unreadable =
      resolve_threshold_with_source env MetaFile.missing) ∧
    (resolve_threshold_with_source env MetaFile.invalidJson =
      resolve_threshold_with_source env MetaFile.missing) ∧
    (∀ j, metadataThreshold (MetaFile.content j) = none →
      resolve_threshold_with_source env (MetaFile.content j) =
        resolve_threshold_with_source env MetaFile.missing) ∧
    resolve_threshold_with_source none MetaFile.unreadable =
      ((3/5 : ℚ), Source.default) ∧
    resolve_threshold_with_source none MetaFile.invalidJson =
      ((3/5 : ℚ), Source.default) ∧
    resolve_threshold_with_source none MetaFile.missing =
      ((3/5 : ℚ), Source.default) := by
  refine ⟨?_, ?_, ?_, rfl, rfl, rfl⟩
  · cases env with
    | none => rfl
    | some o =>
      cases o with
      | none => rfl
      | some t => by_cases ht : 0 < t ∧ t < 1 <;>
          simp [resolve_threshold_with_source, ht, metadataThreshold]
  · cases env with
    | none => rfl
    | some o =>
      cases o with
      | none => rfl
      | some t => by_cases ht : 0 < t ∧ t < 1 <;>
          simp [resolve_threshold_with_source, ht, metadataThreshold]
  · intro j hj
    have hmiss : metadataThreshold MetaFile.missing = none := rfl
    cases env with
    | none => simp only [resolve_threshold_with_source, hj, hmiss]
    | some o =>
      cases o with
      | none => simp only [resolve_threshold_with_source, hj, hmiss]
      | some t =>
        by_cases ht : 0 < t ∧ t < 1 <;>
          simp [resolve_threshold_with_source, ht, hj, hmiss]

/-- Witness for C7: a JSON object carrying only training metrics and no
acceptable threshold key resolves exactly like a missing file. -/
theorem resolve_threshold_never_fatal_witness :
    resolve_threshold_with_source none
        (MetaFile.content (JVal.obj [("roc_auc", JVal.num (9/10))])) =
      resolve_threshold_with_source none MetaFile.missing :=
  (resolve_threshold_never_fatal none).2.2.1
    (JVal.obj [("roc_auc", JVal.num (9/10))]) rfl

/-- C2: `set_user_threshold(value)` fails with the invalid-threshold error
whenever `value` is not strictly between 0 and 1; for every in-range value
it succeeds, the written metadata maps `user_threshold` to the value and
`user_threshold_set_at` to the timestamp, every other key keeps its prior
value, and starting from no metadata file the created metadata holds only
those two keys. -/
theorem update_threshold_validates_and_frames (v : ℚ) (now : String) :
    (¬(0 < v ∧ v < 1) → ∀ st,
      update_threshold v now st = Except.error UpdateError.invalidThreshold) ∧
    (0 < v ∧ v < 1 →
      (update_threshold v now MetaFile.missing =
        Except.ok ((v, "metadata"), MetaFile.content (JVal.obj
          [("user_threshold", JVal.num v),
           ("user_threshold_set_at", JVal.str now)]))) ∧
      (∀ l, ∃ m,
        update_threshold v now (MetaFile.content (JVal.obj l)) =
          Except.ok ((v, "metadata"), MetaFile.content (JVal.obj m)) ∧
        jget m "user_threshold" = some (JVal.num v) ∧
        jget m "user_threshold_set_at" = some (JVal.str now) ∧
        ∀ k, k ≠ "user_threshold" → k ≠ "user_threshold_set_at" →
          jget m k = jget l k)) := by
  constructor
  · intro h st
    unfold update_threshold
    rw [if_neg h]
  · intro h
    constructor
    · unfold update_threshold
      rw [if_pos h]
      rfl
    · intro l
      refine ⟨dictSet (dictSet l "user_threshold" (JVal.num v))
        "user_threshold_set_at" (JVal.str now), ?_, ?_, ?_, ?_⟩
      · unfold update_threshold
        rw [if_pos h]
      · rw [jget_dictSet_ne _ _ _ _ (by decide), jget_dictSet_self]
      · rw [jget_dictSet_self]
      · intro k h1 h2
        rw [jget_dictSet_ne _ _ _ _ h2, jget_dictSet_ne _ _ _ _ h1]

/-- Witness for C2: `set_user_threshold(3/2)` is rejected, while
`set_user_threshold(2/5)` on a metadata file holding training metrics
keeps `roc_auc` untouched and records the new user threshold. -/
theorem update_threshold_validates_and_frames_witness :
    update_threshold (3/2) "T0" MetaFile.missing =
      Except.error UpdateError.invalidThreshold ∧
    ∃ m,
      update_threshold (2/5) "T0"
          (MetaFile.content (JVal.obj [("roc_auc", JVal.num (9/10))])) =
        Except.ok (((2/5 : ℚ), "metadata"), MetaFile.content (JVal.obj m)) ∧
      jget m "user_threshold" = some (JVal.num (2/5)) ∧
      jget m "roc_auc" = some (JVal.num (9/10)) := by
  constructor
  · exact (update_threshold_validates_and_frames (3/2) "T0").1
      (by norm_num) MetaFile.missing
  · obtain ⟨m, he, hu, hs, hf⟩ :=
      ((update_threshold_validates_and_frames (2/5) "T0").2
        (by norm_num)).2 [("roc_auc", JVal.num (9/10))]
    exact ⟨m, he, hu, (hf "roc_auc" (by decide) (by decide)).trans rfl⟩

/-- C10: when the metadata file exists but holds invalid JSON, the
`JSONDecodeError` is swallowed, `set_user_threshold` still succeeds for an
in-range value, and the file it writes holds only `user_threshold` and
`user_threshold_set_at` — the corrupt contents are discarded without any
error reaching the caller. -/
theorem update_threshold_discards_corrupt (v : ℚ) (now : String)
    (h : 0 < v ∧ v < 1) :
    update_threshold v now MetaFile.invalidJson =
      Except.ok ((v, "metadata"), MetaFile.content (JVal.obj
        [("user_threshold", JVal.num v),
         ("user_threshold_set_at", JVal.str now)])) := by
  unfold update_threshold
  rw [if_pos h]
  rfl

/-- Witness for C10 at the concrete value 1/2. -/
theorem update_threshold_discards_corrupt_witness :
    update_threshold (1/2) "T1" MetaFile.invalidJson =
      Except.ok (((1/2 : ℚ), "metadata"), MetaFile.content (JVal.obj
        [("user_threshold", JVal.num (1/2)),
         ("user_threshold_set_at", JVal.str "T1")])) :=
  update_threshold_discards_corrupt (1/2) "T1" (by norm_num)

/-- Helper: the `user_threshold` entry of the dict written by
`update_threshold`, over any prior dict contents. -/
theorem jget_written_user_threshold (v : ℚ) (now : String)
    (base : List (String × JVal)) :
    jget (dictSet (dictSet base "user_threshold" (JVal.num v))
        "user_threshold_set_at" (JVal.str now)) "user_threshold" =
      some (JVal.num v) := by
  rw [jget_dictSet_ne _ _ _ _ (by decide), jget_dictSet_self]

/-- Helper: a successful `update_threshold` call had an in-range value and
left the file holding a JSON dict whose `user_threshold` entry is that
value. -/
theorem update_threshold_ok_state (v : ℚ) (now : String)
    (st st' : MetaFile) (resp : ℚ × String)
    (h : update_threshold v now st = Except.ok (resp, st')) :
    ∃ m, st' = MetaFile.content (JVal.obj m) ∧
      jget m "user_threshold" = some (JVal.num v) ∧ (0 < v ∧ v < 1) := by
  by_cases hv : 0 < v ∧ v < 1
  · unfold update_threshold at h
    rw [if_pos hv] at h
    cases st with
    | unreadable => exact absurd h (by simp)
    | missing =>
      simp only [Except.ok.injEq, Prod.mk.injEq] at h
      exact ⟨_, h.2.symm, jget_written_user_threshold v now _, hv⟩
    | invalidJson =>
      simp only [Except.ok.injEq, Prod.mk.injEq] at h
      exact ⟨_, h.2.symm, jget_written_user_threshold v now _, hv⟩
    | content j =>
      cases j <;>
        · simp only [Except.ok.injEq, Prod.mk.injEq] at h
          exact ⟨_, h.2.symm, jget_written_user_threshold v now _, hv⟩
  · unfold update_threshold at h
    rw [if_neg hv] at h
    exact absurd h (by simp)

/-- C8: whenever `set_user_threshold(v)` succeeds with an in-range `v`, a
subsequent `resolve_threshold` call with no environment override reads the
state it wrote and returns `(v, metadata_user)`. -/
theorem set_then_resolve_roundtrip (v : ℚ) (now : String)
    (st st' : MetaFile) (resp : ℚ × String)
    (hv : 0 < v ∧ v < 1)
    (hupd : update_threshold v now st = Except.ok (resp, st')) :
    resolve_threshold_with_source none st' = (v, Source.metadataUser) := by
  obtain ⟨m, hst, hu, -⟩ := update_threshold_ok_state v now st st' resp hupd
  subst hst
  simp [resolve_threshold_with_source, metadataThreshold, acceptThreshold,
    jnumVal, hu, hv]

/-- Witness for C8: setting 2/5 on an absent metadata file and resolving
with no override yields `(2/5, metadata_user)`. -/
theorem set_then_resolve_roundtrip_witness :
    resolve_threshold_with_source none
        (MetaFile.content (JVal.obj
          [("user_threshold", JVal.num (2/5)),
           ("user_threshold_set_at", JVal.str "T2")])) =
      ((2/5 : ℚ), Source.metadataUser) :=
  set_then_resolve_roundtrip (2/5) "T2" MetaFile.missing
    (MetaFile.content (JVal.obj
      [("user_threshold", JVal.num (2/5)),
       ("user_threshold_set_at", JVal.str "T2")]))
    ((2/5 : ℚ), "metadata") (by norm_num)
    (by unfold update_threshold
        rw [if_pos (by norm_num : (0:ℚ) < 2/5 ∧ (2/5:ℚ) < 1)]
        rfl)

/-- C3: on every valid feature row the Predictor returns a probability in
[0, 1], its binary prediction is 1 exactly when the probability is at
least the threshold in use, and the threshold in use (and its source) are
the ones the Threshold Resolver returns at the time of the call. -/
theorem predict_probability_and_thresholding (art : Artifact)
    (env : Option (Option ℚ)) (meta : MetaFile) (a m i : ℚ) :
    0 ≤ (Predictor.predict art env meta a m i).probability ∧
    (Predictor.predict art env meta a m i).probability ≤ 1 ∧
    ((Predictor.predict art env meta a m i).prediction = 1 ↔
      (Predictor.predict art env meta a m i).threshold_used ≤
        (Predictor.predict art env meta a m i).probability) ∧
    (Predictor.predict art env meta a m i).threshold_used =
      (resolve_threshold_with_source env meta).1 ∧
    (Predictor.predict art env meta a m i).threshold_source =
      (resolve_threshold_with_source env meta).2 := by
  refine ⟨art.prob_nonneg a m i, art.prob_le_one a m i, ?_, rfl, rfl⟩
  simp only [Predictor.predict]
  by_cases h : (resolve_threshold_with_source env meta).1 ≤ art.prob a m i
  · simp [h]
  · simp [h]

/-- C4: `train_from_csv` fails with the dataset-not-found error on every
missing dataset path, and with the insufficient-data error naming the row
count found whenever fewer than 10 rows remain after dropping rows with a
missing `result` label; with at least 10 such rows neither precondition
error fires — control reaches `train_model`, and when fit/evaluation
succeeds the run returns normally. -/
theorem train_from_csv_preconditions (path : String) (fit : FitOutcome)
    (st : MetaFile) :
    (train_from_csv path fit Dataset.missing st =
      Except.error (TrainError.fileNotFound
        ("Dataset not found at " ++ path))) ∧
    (∀ rows, (rows.filter fun r => r.result.isSome).length < 10 →
      train_from_csv path fit (Dataset.table rows) st =
        Except.error (TrainError.valueError
          ("Insufficient data for training. Need at least 10 samples, got "
            ++ toString (rows.filter fun r => r.result.isSome).length))) ∧
    (∀ rows, 10 ≤ (rows.filter fun r => r.result.isSome).length →
      train_from_csv path fit (Dataset.table rows) st =
        train_model fit (rows.filter fun r => r.result.isSome) st ∧
      ∀ auc, fit = FitOutcome.ok auc → ∃ m,
        train_from_csv path fit (Dataset.table rows) st =
          Except.ok (m, MetaFile.content m)) := by
  refine ⟨rfl, ?_, ?_⟩
  · intro rows h
    simp only [train_from_csv]
    rw [if_pos h]
  · intro rows h
    have he : train_from_csv path fit (Dataset.table rows) st =
        train_model fit (rows.filter fun r => r.result.isSome) st := by
      simp only [train_from_csv]
      rw [if_neg (Nat.not_lt.mpr h)]
    refine ⟨he, ?_⟩
    intro auc hfit
    subst hfit
    exact ⟨_, he.trans rfl⟩

/-- Witness for C4: five labelled rows trip the insufficiency error; with
eleven rows (ten labelled) training proceeds into `train_model`. -/
theorem train_from_csv_preconditions_witness :
    ((rows5.filter fun r => r.result.isSome).length < 10 ∧
      train_from_csv "p" (FitOutcome.ok (4/5)) (Dataset.table rows5)
          MetaFile.missing =
        Except.error (TrainError.valueError
          ("Insufficient data for training. Need at least 10 samples, got "
            ++ toString (rows5.filter fun r => r.result.isSome).length))) ∧
    (10 ≤ (rows11.filter fun r => r.result.isSome).length ∧
      train_from_csv "p" (FitOutcome.ok (4/5)) (Dataset.table rows11)
          MetaFile.missing =
        train_model (FitOutcome.ok (4/5))
          (rows11.filter fun r => r.result.isSome) MetaFile.missing) := by
  constructor
  · exact ⟨by decide,
      (train_from_csv_preconditions "p" (FitOutcome.ok (4/5))
        MetaFile.missing).2.1 rows5 (by decide)⟩
  · exact ⟨by decide,
      ((train_from_csv_preconditions "p" (FitOutcome.ok (4/5))
        MetaFile.missing).2.2 rows11 (by decide)).1⟩

/-- C5: a successful training run writes metadata consisting of exactly
the run's ROC-AUC, the usable-row count `samples_used`, the per-class
counts mapping each label to its count, and `recommended_threshold = 0.6`;
the written state does not depend on the prior metadata, and no other key
(in particular no `user_threshold`) appears in it. -/
theorem train_model_replaces_metadata (auc : ℚ) (df : List TrainRow)
    (st : MetaFile) :
    ∃ m,
      train_model (FitOutcome.ok auc) df st =
        Except.ok (JVal.obj m, MetaFile.content (JVal.obj m)) ∧
      (∀ st2, train_model (FitOutcome.ok auc) df st2 =
        train_model (FitOutcome.ok auc) df st) ∧
      jget m "roc_auc" = some (JVal.num auc) ∧
      jget m "samples_used" = some (JVal.num (df.length : ℚ)) ∧
      jget m "recommended_threshold" = some (JVal.num (3/5 : ℚ)) ∧
      jget m "class_counts" = some (JVal.obj
        ((value_counts (df.filterMap fun r => r.result)).map
          fun p => (toString p.1, JVal.num (p.2 : ℚ)))) ∧
      (∀ x, x ∈ df.filterMap (fun r => r.result) →
        (x, classCount (df.filterMap fun r => r.result) x) ∈
          value_counts (df.filterMap fun r => r.result)) ∧
      (∀ k, k ≠ "roc_auc" → k ≠ "samples_used" → k ≠ "class_counts" →
        k ≠ "recommended_threshold" → jget m k = none) := by
  refine ⟨[("roc_auc", JVal.num auc),
    ("samples_used", JVal.num (df.length : ℚ)),
    ("class_counts", JVal.obj
      ((value_counts (df.filterMap fun r => r.result)).map
        fun p => (toString p.1, JVal.num (p.2 : ℚ)))),
    ("recommended_threshold", JVal.num (3/5 : ℚ))],
    rfl, fun _ => rfl, rfl, rfl, rfl, rfl, ?_, ?_⟩
  · intro x hx
    exact List.mem_map_of_mem _ (List.mem_dedup.mpr hx)
  · intro k h1 h2 h3 h4
    simp [jget, Ne.symm h1, Ne.symm h2, Ne.symm h3, Ne.symm h4]

/-- Witness for C5: after training on the five sample rows over a file
that held a `user_threshold`, the new metadata no longer has that key. -/
theorem train_model_replaces_metadata_witness :
    ∃ m,
      train_model (FitOutcome.ok (4/5)) rows5
          (MetaFile.content (JVal.obj [("user_threshold", JVal.num (1/2))])) =
        Except.ok (JVal.obj m, MetaFile.content (JVal.obj m)) ∧
      jget m "user_threshold" = none := by
  obtain ⟨m, he, -, -, -, -, -, -, hnone⟩ :=
    train_model_replaces_metadata (4/5) rows5
      (MetaFile.content (JVal.obj [("user_threshold", JVal.num (1/2))]))
  exact ⟨m, he, hnone "user_threshold" (by decide) (by decide) (by decide)
    (by decide)⟩

/-- Counterexample for C6: the claim says every exception raised during
fit/evaluation reaches the caller as a generic internal failure
distinguishable from the two precondition failures.  But the `retrain`
endpoint maps every `ValueError` to HTTP 400, and scikit-learn raises
`ValueError` from `roc_auc_score` when the test split holds a single
class; on ten single-class rows that fit/evaluation failure produces the
same 400 status as the `DataInsufficientError` precondition failure shown
alongside, so the two are not distinguishable. -/
theorem retrain_fit_valueerror_conflated :
    retrain_endpoint "p"
        (FitOutcome.raises (TrainError.valueError
          "Only one class present in y_true. ROC AUC score is not defined in that case."))
        (Dataset.table rows10one) MetaFile.missing =
      Except.error (400,
        "Only one class present in y_true. ROC AUC score is not defined in that case.") ∧
    retrain_endpoint "p" (FitOutcome.ok (4/5)) (Dataset.table rows5)
        MetaFile.missing =
      Except.error (400,
        "Insufficient data for training. Need at least 10 samples, got 5") := by
  constructor
  · rfl
  · rfl

/-- C6 amended: an exception raised during fit/evaluation that is neither
a `ValueError` nor a `FileNotFoundError` propagates as a generic internal
training failure with HTTP status 500, distinct from the 404 of
`DatasetNotFoundError` and the 400 of `DataInsufficientError`; a
`ValueError` from fit/evaluation, however, is reported with the same 400
status as the insufficiency precondition (and a `FileNotFoundError` with
the same 404 as a missing dataset), so only non-`ValueError`,
non-`FileNotFoundError` failures are distinguishable. -/
theorem retrain_internal_failure_distinct (path msg : String)
    (rows : List TrainRow) (st : MetaFile)
    (h : 10 ≤ (rows.filter fun r => r.result.isSome).length) :
    retrain_endpoint path (FitOutcome.raises (TrainError.otherError msg))
        (Dataset.table rows) st =
      Except.error (500, "Training error: " ++ msg) := by
  simp only [retrain_endpoint, train_from_csv]
  rw [if_neg (Nat.not_lt.mpr h)]
  rfl

/-- Witness for the amended C6 on eleven concrete rows and a non-ValueError
exception. -/
theorem retrain_internal_failure_distinct_witness :
    retrain_endpoint "p"
        (FitOutcome.raises (TrainError.otherError "LinAlgError: singular matrix"))
        (Dataset.table rows11) MetaFile.missing =
      Except.error (500, "Training error: LinAlgError: singular matrix") :=
  retrain_internal_failure_distinct "p" "LinAlgError: singular matrix"
    rows11 MetaFile.missing (by decide)

/-- Helper: a row passes the completeness filter exactly when none of the
three required features is missing. -/
theorem completeRow_eq_none_iff (e : Enrollment) :
    completeRow e = none ↔
      (e.attendance = none ∨ e.marks = none ∨ e.internal_score = none) := by
  cases e with
  | mk sid cid a m i => cases a <;> cases m <;> cases i <;> simp [completeRow]

/-- Helper: the identifiers carried through the completeness filter are
those of the originating enrollment. -/
theorem completeRow_ids (e : Enrollment) (p : Int × Int × ℚ × ℚ × ℚ)
    (h : completeRow e = some p) :
    p.1 = e.student_id ∧ p.2.1 = e.course_id := by
  cases e with
  | mk sid cid a m i =>
    cases a with
    | none => simp [completeRow] at h
    | some av =>
      cases m with
      | none => simp [completeRow] at h
      | some mv =>
        cases i with
        | none => simp [completeRow] at h
        | some iv =>
          simp only [completeRow] at h
          injection h with h2
          subst h2
          exact ⟨rfl, rfl⟩

/-- Helper: the kept rows' identifiers form an order-preserving
subsequence of the input identifiers. -/
theorem kept_ids_sublist (es : List Enrollment) :
    List.Sublist ((es.filterMap completeRow).map fun p => (p.1, p.2.1))
      (es.map fun e => (e.student_id, e.course_id)) := by
  induction es with
  | nil => simp
  | cons e rest ih =>
    cases hc : completeRow e with
    | none =>
      simp only [List.filterMap_cons, hc, List.map_cons]
      exact ih.cons _
    | some p =>
      have hid := completeRow_ids e p hc
      simp only [List.filterMap_cons, hc, List.map_cons]
      rw [hid.1, hid.2]
      exact ih.cons₂ _

/-- C9: in batch prediction every input row missing one of the three
required features is excluded; every other row produces exactly one
result tagged with its originating identifiers, in the input order (the
kept identifiers are an order-preserving subsequence of the input
identifiers); and the batch call fails (HTTP 400) exactly when no input
row is usable. -/
theorem predict_batch_partition (art : Artifact) (env : Option (Option ℚ))
    (meta : MetaFile) (es : List Enrollment) :
    (∀ e, completeRow e = none ↔
      (e.attendance = none ∨ e.marks = none ∨ e.internal_score = none)) ∧
    (es.filterMap completeRow = [] →
      predict_batch_endpoint art env meta es =
        Except.error (400, "No enrollments with complete data found for prediction. Please ensure students have attendance, marks, and internal_score values.")) ∧
    (es.filterMap completeRow ≠ [] → ∃ rs,
      predict_batch_endpoint art env meta es = Except.ok (rs, rs.length) ∧
      rs.length = (es.filterMap completeRow).length ∧
      (rs.map fun r => (r.student_id, r.course_id)) =
        ((es.filterMap completeRow).map fun p => (p.1, p.2.1)) ∧
      List.Sublist ((es.filterMap completeRow).map fun p => (p.1, p.2.1))
        (es.map fun e => (e.student_id, e.course_id))) := by
  refine ⟨completeRow_eq_none_iff, ?_, ?_⟩
  · intro h
    simp [predict_batch_endpoint, h]
  · intro h
    have hne : (es.filterMap completeRow).isEmpty = false := by
      cases hq : es.filterMap completeRow with
      | nil => exact absurd hq h
      | cons a l => rfl
    refine ⟨(es.filterMap completeRow).map
      (predictEntry art (resolve_threshold_with_source env meta).1),
      ?_, by simp, ?_, kept_ids_sublist es⟩
    · simp [predict_batch_endpoint, hne]
    · rw [List.map_map]
      rfl

/-- Witness for C9: five enrollments of which two lack `internal_score`
yield exactly three results, tagged `(1,101), (3,101), (5,102)` in input
order. -/
theorem predict_batch_partition_witness :
    ∃ rs,
      predict_batch_endpoint constArtifact none MetaFile.missing es5 =
        Except.ok (rs, rs.length) ∧
      rs.length = 3 ∧
      (rs.map fun r => (r.student_id, r.course_id)) =
        [((1 : Int), (101 : Int)), (3, 101), (5, 102)] := by
  obtain ⟨rs, he, hlen, hids, -⟩ :=
    (predict_batch_partition constArtifact none MetaFile.missing es5).2.2
      (by decide)
  exact ⟨rs, he, hlen.trans (by decide), hids.trans (by decide)⟩
